import Mathlib

/-! Verification development for the torax 1-D tokamak transport simulator
sources: grid and geometry construction (`geometry.py`), the constant
transport model (`transport_model/constant.py`), the fixed time-step
calculator (`time_step_calculator/fixed_time_step_calculator.py`), and
spec-level models of the stepper, simulation loop and solver strategies
(whose modules are exercised by `tests/sim.py` but are not part of the
sampled sources). Machine floating-point arithmetic is embedded as exact
rational arithmetic; the float constant `jnp.pi` is embedded as the exact
rational value of the IEEE-754 double 3.141592653589793. -/

namespace Torax

/-- Elementwise product of two equal-length 1-D arrays (numpy `*`). -/
def emul (xs ys : List ℚ) : List ℚ := List.zipWith (fun a b => a * b) xs ys

/-- Elementwise quotient of two equal-length 1-D arrays (numpy `/`). -/
def ediv (xs ys : List ℚ) : List ℚ := List.zipWith (fun a b => a / b) xs ys

/-- Elementwise sum of two equal-length 1-D arrays (numpy `+`). -/
def eadd (xs ys : List ℚ) : List ℚ := List.zipWith (fun a b => a + b) xs ys

/-- Scalar times array, `c * xs` in numpy broadcasting. -/
def smulL (c : ℚ) (xs : List ℚ) : List ℚ := xs.map (fun x => c * x)

/-- Array times scalar, `xs * c` in numpy broadcasting. -/
def mulsR (xs : List ℚ) (c : ℚ) : List ℚ := xs.map (fun x => x * c)

/-- Array divided by scalar, `xs / c` in numpy broadcasting. -/
def divsR (xs : List ℚ) (c : ℚ) : List ℚ := xs.map (fun x => x / c)

/-- Elementwise square, `xs ** 2` in numpy. -/
def esq (xs : List ℚ) : List ℚ := xs.map (fun x => x ^ 2)

/-- Last element of an array (`xs[-1]` in numpy; 0 for an empty array). -/
def lastD (xs : List ℚ) : ℚ := xs.getD (xs.length - 1) 0

/-- Embedding of `jnp.linspace a b num`: `num` evenly spaced samples from
`a` to `b` inclusive.  For `num = 1` the single sample is `a`, matching
numpy (the division by `num - 1 = 0` vanishes because the index is 0). -/
def linspace (a b : ℚ) (num : ℕ) : List ℚ :=
  (List.range num).map (fun i : ℕ => a + (i : ℚ) * (b - a) / ((num : ℚ) - 1))

/-- Exact rational value of the IEEE-754 double `jnp.pi`
(3.141592653589793...), namely 884279719003555 / 2^48. -/
def pi_q : ℚ := 884279719003555 / 281474976710656

/-- Modelled from the spec: the `constants` module is not under src/; its
`CONSTANTS.mu0` is the vacuum permeability 4*pi*1e-7 used to unnormalize
the CHEASE current profile. -/
def mu0 : ℚ := 4 * pi_q * (1 / 10 ^ 7)

/-- Embedding of `geometry.Grid1D`: a 1-D grid of `nx` cells with `nx + 1`
faces. -/
structure Grid1D where
  nx : ℕ
  dx : ℚ
  face_centers : List ℚ
  cell_centers : List ℚ
deriving DecidableEq

/-- Embedding of `Grid1D.construct` (geometry.py lines 57-77):
`face_centers = linspace(0, nx*dx, nx+1)` and
`cell_centers = linspace(dx*0.5, (nx-0.5)*dx, nx)`. -/
def Grid1D.construct (nx : ℕ) (dx : ℚ) : Grid1D :=
  { nx := nx
    dx := dx
    face_centers := linspace 0 ((nx : ℚ) * dx) (nx + 1)
    cell_centers := linspace (dx * 0.5) (((nx : ℚ) - 0.5) * dx) nx }

/-- Embedding of `geometry.face_to_cell` (geometry.py lines 80-93):
`0.5 * (face[:-1] + face[1:])`, linear interpolation between face values. -/
def face_to_cell (face : List ℚ) : List ℚ :=
  smulL 0.5 (eadd face.dropLast (face.drop 1))

/-- Embedding of `config.Config` restricted to the fields the sampled
sources read or write: grid size, machine parameters, plasma current,
simulation-control scalars, per-equation enable flags, and the constant
transport-model coefficients. -/
structure Config where
  nr : ℕ
  Rmaj : ℚ
  Rmin : ℚ
  B0 : ℚ
  Ip : ℚ
  t_final : ℚ
  fixed_dt : ℚ
  ion_heat_eq : Bool
  el_heat_eq : Bool
  current_eq : Bool
  dens_eq : Bool
  chii_const : ℚ
  chie_const : ℚ
  De_const : ℚ
  Ve_const : ℚ
deriving DecidableEq

/-- Transport part of the dynamic config slice (the constant-model
coefficients read by `ConstantTransportModel`). -/
structure TransportDynamicConfigSlice where
  chii_const : ℚ
  chie_const : ℚ
  De_const : ℚ
  Ve_const : ℚ
deriving DecidableEq

/-- Dynamic config slice restricted to the fields the sampled sources
read: `t_final`, `fixed_dt`, `Ip` and the transport coefficients. -/
structure DynamicConfigSlice where
  t_final : ℚ
  fixed_dt : ℚ
  Ip : ℚ
  transport : TransportDynamicConfigSlice
deriving DecidableEq

/-- Modelled from the spec: the `config_slice` module is not under src/;
`build_dynamic_config_slice` takes a read-only snapshot of the subset of
configuration needed for one evaluation (spec section 3, "Config slice"). -/
def build_dynamic_config_slice (c : Config) : DynamicConfigSlice :=
  { t_final := c.t_final
    fixed_dt := c.fixed_dt
    Ip := c.Ip
    transport :=
      { chii_const := c.chii_const
        chie_const := c.chie_const
        De_const := c.De_const
        Ve_const := c.Ve_const } }

/-- Embedding of `geometry.Geometry` (the shared field layout of both
concrete variants).  All arrays are over exact rationals. -/
structure Geometry where
  geometry_type : ℕ
  dr_norm : ℚ
  dr : ℚ
  mesh : Grid1D
  rmax : ℚ
  r_face_norm : List ℚ
  r_norm : List ℚ
  r_face : List ℚ
  r : List ℚ
  B0 : ℚ
  volume : List ℚ
  volume_face : List ℚ
  area : List ℚ
  area_face : List ℚ
  vpr : List ℚ
  vpr_face : List ℚ
  spr_cell : List ℚ
  spr_face : List ℚ
  delta_face : List ℚ
  G2 : List ℚ
  G2_face : List ℚ
  g0 : List ℚ
  g0_face : List ℚ
  g1 : List ℚ
  g1_face : List ℚ
  g0_over_vpr_face : List ℚ
  g1_over_vpr : List ℚ
  g1_over_vpr_face : List ℚ
  g1_over_vpr2 : List ℚ
  g1_over_vpr2_face : List ℚ
  J : List ℚ
  J_face : List ℚ
  F : List ℚ
  F_face : List ℚ
  Rin : List ℚ
  Rin_face : List ℚ
  Rout : List ℚ
  Rout_face : List ℚ

/-- Embedding of `geometry.CircularGeometry`. -/
structure CircularGeometry extends Geometry where
  kappa : List ℚ
  kappa_face : List ℚ
  volume_hires : List ℚ
  area_hires : List ℚ
  G2_hires : List ℚ
  spr_hires : List ℚ
  r_hires_norm : List ℚ
  r_hires : List ℚ
  kappa_hires : List ℚ
  vpr_hires : List ℚ

/-- Embedding of `geometry.CHEASEGeometry`. -/
structure CHEASEGeometry extends Geometry where
  g2 : List ℚ
  g3 : List ℚ
  psi_chease : List ℚ
  psi_from_chease_Ip : List ℚ
  jtot : List ℚ
  jtot_face : List ℚ
  delta_upper_face : List ℚ
  delta_lower_face : List ℚ

/-- Embedding of `build_circular_geometry` (geometry.py lines 177-387).
Pure function of the config (and the `kappa`, `hires_fac` arguments, whose
source defaults are 1.72 and 4).  The square root appearing in the `<1/R^2>`
factors (`G2`, `G2_hires`, `G2_face`) is irrational, so the embedding is
parametrized by the real square-root function `sqrtFn`; no other quantity
depends on it.  To make the absence of config mutation in the source
observable, the builder returns the (unchanged) config alongside the
geometry. -/
def build_circular_geometry (sqrtFn : ℚ → ℚ) (config : Config)
    (kappa : ℚ) (hires_fac : ℕ) : CircularGeometry × Config :=
  let dr_norm := 1 / (config.nr : ℚ)
  let mesh := Grid1D.construct config.nr dr_norm
  let rmax := config.Rmin
  let r_face_norm := mesh.face_centers
  let r_norm := mesh.cell_centers
  let dr := dr_norm * rmax
  let r_face := mulsR r_face_norm rmax
  let r := mulsR r_norm rmax
  let B0 := config.B0
  let kappa_param := kappa
  let kappa := r_norm.map (fun x => 1 + x * (kappa_param - 1))
  let kappa_face := r_face_norm.map (fun x => 1 + x * (kappa_param - 1))
  let volume := emul (smulL (2 * pi_q ^ 2 * config.Rmaj) (esq r)) kappa
  let volume_face := emul (smulL (2 * pi_q ^ 2 * config.Rmaj) (esq r_face)) kappa_face
  let area := emul (smulL pi_q (esq r)) kappa
  let area_face := emul (smulL pi_q (esq r_face)) kappa_face
  let vpr := eadd (smulL (4 * pi_q ^ 2 * config.Rmaj) (emul r kappa))
    (divsR (mulsR (ediv volume kappa) (kappa_param - 1)) rmax)
  let vpr_face := eadd (smulL (4 * pi_q ^ 2 * config.Rmaj) (emul r_face kappa_face))
    (divsR (mulsR (ediv volume_face kappa_face) (kappa_param - 1)) rmax)
  let spr_cell := eadd (smulL (2 * pi_q) (emul r kappa))
    (divsR (mulsR (ediv area kappa) (kappa_param - 1)) rmax)
  let spr_face := eadd (smulL (2 * pi_q) (emul r_face kappa_face))
    (divsR (mulsR (ediv area_face kappa_face) (kappa_param - 1)) rmax)
  let delta_face := List.replicate r_face.length (0 : ℚ)
  let G2 := ediv vpr
    (smulL (4 * pi_q ^ 2 * config.Rmaj ^ 2)
      (r.map (fun x => sqrtFn (1 - (x / config.Rmaj) ^ 2))))
  let G2_outer_face := lastD vpr_face /
    (4 * pi_q ^ 2 * config.Rmaj ^ 2 * sqrtFn (1 - (lastD r_face / config.Rmaj) ^ 2))
  let G2_face := ((0 : ℚ) :: smulL 0.5 (eadd G2.dropLast (G2.drop 1))) ++ [G2_outer_face]
  let g0 := vpr
  let g0_face := vpr_face
  let g1 := esq vpr
  let g1_face := esq vpr_face
  let J := List.replicate r.length (1 : ℚ)
  let J_face := List.replicate r_face.length (1 : ℚ)
  let F := mulsR (mulsR (List.replicate r.length (1 : ℚ)) config.Rmaj) B0
  let F_face := mulsR (mulsR (List.replicate r_face.length (1 : ℚ)) config.Rmaj) B0
  let r_hires_norm := linspace 0 1 (config.nr * hires_fac)
  let r_hires := mulsR r_hires_norm rmax
  let Rout := r.map (fun x => config.Rmaj + x)
  let Rout_face := r_face.map (fun x => config.Rmaj + x)
  let Rin := r.map (fun x => config.Rmaj - x)
  let Rin_face := r_face.map (fun x => config.Rmaj - x)
  let kappa_hires := r_hires_norm.map (fun x => 1 + x * (kappa_param - 1))
  let volume_hires := emul (smulL (2 * pi_q ^ 2 * config.Rmaj) (esq r_hires)) kappa_hires
  let area_hires := emul (smulL pi_q (esq r_hires)) kappa_hires
  let vpr_hires := eadd (smulL (4 * pi_q ^ 2 * config.Rmaj) (emul r_hires kappa_hires))
    (divsR (mulsR (ediv volume_hires kappa_hires) (kappa_param - 1)) rmax)
  let spr_hires := eadd (smulL (2 * pi_q) (emul r_hires kappa_hires))
    (divsR (mulsR (ediv area_hires kappa_hires) (kappa_param - 1)) rmax)
  let denom := smulL (4 * pi_q ^ 2 * config.Rmaj ^ 2)
    (r_hires.map (fun x => sqrtFn (1 - (x / config.Rmaj) ^ 2)))
  let G2_hires := ediv vpr_hires denom
  let g1_over_vpr := ediv g1 vpr
  let g1_over_vpr2 := ediv g1 (esq vpr)
  let g0_over_vpr_face := (1 : ℚ) :: ediv (g0_face.drop 1) (vpr_face.drop 1)
  let g1_over_vpr_face := (0 : ℚ) :: ediv (g1_face.drop 1) (vpr_face.drop 1)
  let g1_over_vpr2_face := (1 : ℚ) :: ediv (g1_face.drop 1) (esq (vpr_face.drop 1))
  ({ geometry_type := 0
     dr_norm := dr_norm
     dr := dr
     mesh := mesh
     rmax := rmax
     r_face_norm := r_face_norm
     r_norm := r_norm
     r_face := r_face
     r := r
     B0 := B0
     volume := volume
     volume_face := volume_face
     area := area
     area_face := area_face
     vpr := vpr
     vpr_face := vpr_face
     spr_cell := spr_cell
     spr_face := spr_face
     delta_face := delta_face
     G2 := G2
     G2_face := G2_face
     g0 := g0
     g0_face := g0_face
     g1 := g1
     g1_face := g1_face
     g0_over_vpr_face := g0_over_vpr_face
     g1_over_vpr := g1_over_vpr
     g1_over_vpr_face := g1_over_vpr_face
     g1_over_vpr2 := g1_over_vpr2
     g1_over_vpr2_face := g1_over_vpr2_face
     J := J
     J_face := J_face
     F := F
     F_face := F_face
     Rin := Rin
     Rin_face := Rin_face
     Rout := Rout
     Rout_face := Rout_face
     kappa := kappa
     kappa_face := kappa_face
     volume_hires := volume_hires
     area_hires := area_hires
     G2_hires := G2_hires
     spr_hires := spr_hires
     r_hires_norm := r_hires_norm
     r_hires := r_hires
     kappa_hires := kappa_hires
     vpr_hires := vpr_hires }, config)

/-- Piecewise-linear interpolation of one sample point over a zipped list
of (coordinate, value) knots, helper for `interp`. -/
def interpPts (x : ℚ) : List (ℚ × ℚ) → ℚ
  | [] => 0
  | [p] => p.2
  | p :: q :: rest =>
    if x ≤ p.1 then p.2
    else if x ≤ q.1 then p.2 + (q.2 - p.2) * (x - p.1) / (q.1 - p.1)
    else interpPts x (q :: rest)

/-- Embedding of `jnp.interp x xp fp`: 1-D piecewise-linear interpolation
onto the sample point `x` from knot coordinates `xp` (assumed increasing)
and knot values `fp`, clamping to the end values outside the knot range. -/
def interp (x : ℚ) (xp fp : List ℚ) : ℚ := interpPts x (xp.zip fp)

/-- Modelled from the spec: the `math_utils` module is not under src/; its
`gradient(f, x)` is the finite-difference derivative of samples `f` with
respect to coordinates `x` (spec section 4.1 and 8 describe derived radial
derivatives via finite differencing): one-sided differences at the two
boundaries, central differences in the interior. -/
def gradient (f x : List ℚ) : List ℚ :=
  (List.range f.length).map (fun i : ℕ =>
    if i = 0 then
      (f.getD 1 0 - f.getD 0 0) / (x.getD 1 0 - x.getD 0 0)
    else if i = f.length - 1 then
      (f.getD i 0 - f.getD (i - 1) 0) / (x.getD i 0 - x.getD (i - 1) 0)
    else
      (f.getD (i + 1) 0 - f.getD (i - 1) 0) / (x.getD (i + 1) 0 - x.getD (i - 1) 0))

/-- Embedding of `jax.scipy.integrate.trapezoid y x`: trapezoid-rule
integral of samples `y` against coordinates `x`. -/
def trapezoid (y x : List ℚ) : ℚ :=
  (List.zipWith (fun a b => a * b)
    (List.zipWith (fun a b => (a + b) / 2) (y.drop 1) y)
    (List.zipWith (fun a b => a - b) (x.drop 1) x)).sum

/-- In-place update of the last element (`xs.at[-1].set v` in JAX). -/
def setLast (xs : List ℚ) (v : ℚ) : List ℚ := xs.set (xs.length - 1) v

/-- Embedding of the CHEASE data mapping consumed by
`build_chease_geometry`: the pre-parsed field-name-to-array mapping
produced by `geometry_loader.initialize_CHEASE_dict` (file parsing is an
external collaborator per spec section 6).  Field names are sanitized
versions of the CHEASE column names used in the source. -/
structure CheaseData where
  psichease : List ℚ
  Ipprofile : List ℚ
  rho_tor : List ℚ
  rho_tor_norm : List ℚ
  R_inboard : List ℚ
  R_outboard : List ℚ
  T_RBphi : List ℚ
  delta_upper : List ℚ
  delta_bottom : List ℚ
  int_Jdchi : List ℚ
  one_over_R2 : List ℚ
  Bp2 : List ℚ
  grad_psi_sq : List ℚ
  grad_psi : List ℚ
  volumeprofile : List ℚ
  areaprofile : List ℚ
deriving DecidableEq

/-- Embedding of `build_chease_geometry` (geometry.py lines 393-687),
taking the pre-parsed CHEASE data mapping instead of a file path (the
directory/environment-variable resolution and file read at lines 421-430
are construction-time I/O outside the numeric core).  The source mutates
`config.Ip` in the `Ip_from_parameters=False` branch (line 514), so the
embedding threads the config explicitly and returns the possibly-updated
config alongside the geometry. -/
def build_chease_geometry (config : Config) (chease_data : CheaseData)
    (Ip_from_parameters : Bool) : CHEASEGeometry × Config :=
  let dynamic_config_slice := build_dynamic_config_slice config
  let B0 := config.B0
  let psiunnormfactor := (config.Rmaj ^ 2 * B0) * 2 * pi_q
  let psi_chease := mulsR chease_data.psichease psiunnormfactor
  let Ip_chease := mulsR (mulsR (divsR chease_data.Ipprofile mu0) config.Rmaj) B0
  let rho := mulsR chease_data.rho_tor config.Rmaj
  let rhon := chease_data.rho_tor_norm
  let Rin := mulsR chease_data.R_inboard config.Rmaj
  let Rout := mulsR chease_data.R_outboard config.Rmaj
  let J := chease_data.T_RBphi
  let delta_upper_face := chease_data.delta_upper
  let delta_lower_face := chease_data.delta_bottom
  let C1 := divsR (mulsR chease_data.int_Jdchi config.Rmaj) B0
  let C2 := divsR (emul chease_data.one_over_R2 C1) (config.Rmaj ^ 2)
  let C3 := mulsR (emul chease_data.Bp2 C1) (B0 ^ 2)
  let C4 := mulsR (emul chease_data.grad_psi_sq C1) ((B0 * config.Rmaj) ^ 2)
  let g0 := emul (mulsR (mulsR (smulL (2 * pi_q) chease_data.grad_psi) B0) config.Rmaj) C1
  let g1 := smulL (4 * pi_q ^ 2) (emul C1 C4)
  let g2 := smulL (4 * pi_q ^ 2) (emul C1 C3)
  let g3 := (1 / (Rin.getD 0 0) ^ 2) :: ediv (C2.drop 1) (C1.drop 1)
  let G2 := (0 : ℚ) ::
    ediv (emul (emul (smulL (config.Rmaj / (16 * pi_q ^ 4)) (J.drop 1))
      (g2.drop 1)) (g3.drop 1)) (rho.drop 1)
  let dpsidrho := (0 : ℚ) :: ediv (mulsR (Ip_chease.drop 1) mu0) (G2.drop 1)
  let psi_from_chease_Ip := (List.range psi_chease.length).map
    (fun i : ℕ => trapezoid (dpsidrho.take (i + 1)) (rho.take (i + 1)))
  let psi_from_chease_Ip := setLast psi_from_chease_Ip
    (psi_from_chease_Ip.getD (psi_from_chease_Ip.length - 2) 0 +
      mu0 * lastD Ip_chease / lastD G2 *
        (lastD rho - rho.getD (rho.length - 2) 0))
  let Ip_scale_factor :=
    if Ip_from_parameters then dynamic_config_slice.Ip * 1e6 / lastD Ip_chease else 1
  let psi_from_chease_Ip :=
    if Ip_from_parameters then mulsR psi_from_chease_Ip Ip_scale_factor
    else psi_from_chease_Ip
  let config :=
    if Ip_from_parameters then config
    else { config with Ip := lastD Ip_chease / 1e6 }
  let volume := mulsR chease_data.volumeprofile (config.Rmaj ^ 3)
  let area := mulsR chease_data.areaprofile (config.Rmaj ^ 2)
  let vpr := gradient volume rho
  let spr := gradient area rho
  let vpr := vpr.set 0 0
  let spr := spr.set 0 0
  let jtot := mulsR (smulL (2 * pi_q * config.Rmaj) (gradient Ip_chease volume))
    Ip_scale_factor
  let dr_norm := 1 / (config.nr : ℚ)
  let mesh := Grid1D.construct config.nr dr_norm
  let rmax := lastD rho
  let r_face_norm := mesh.face_centers
  let r_norm := mesh.cell_centers
  let dr := dr_norm * rmax
  let r_face := mulsR r_face_norm rmax
  let r := mulsR r_norm rmax
  let vpr_face := r_face_norm.map (fun x => interp x rhon vpr)
  let vpr := r_norm.map (fun x => interp x rhon vpr)
  let spr_face := r_face_norm.map (fun x => interp x rhon spr)
  let spr_cell := r_norm.map (fun x => interp x rhon spr)
  let delta_upper_face := r_face_norm.map (fun x => interp x rhon delta_upper_face)
  let delta_lower_face := r_face_norm.map (fun x => interp x rhon delta_lower_face)
  let delta_face := smulL 0.5 (eadd delta_upper_face delta_lower_face)
  let G2_face := r_face_norm.map (fun x => interp x rhon G2)
  let G2 := r_norm.map (fun x => interp x rhon G2)
  let J_face := r_face_norm.map (fun x => interp x rhon J)
  let J := r_norm.map (fun x => interp x rhon J)
  let F := mulsR (mulsR J config.Rmaj) B0
  let F_face := mulsR (mulsR J_face config.Rmaj) B0
  let psi_chease := r_norm.map (fun x => interp x rhon psi_chease)
  let psi_from_chease_Ip := r_norm.map (fun x => interp x rhon psi_from_chease_Ip)
  let jtot_face := r_face_norm.map (fun x => interp x rhon jtot)
  let jtot := r_norm.map (fun x => interp x rhon jtot)
  let Rin_face := r_face_norm.map (fun x => interp x rhon Rin)
  let Rin := r_norm.map (fun x => interp x rhon Rin)
  let Rout_face := r_face_norm.map (fun x => interp x rhon Rout)
  let Rout := r_norm.map (fun x => interp x rhon Rout)
  let g0_face := r_face_norm.map (fun x => interp x rhon g0)
  let g0 := r_norm.map (fun x => interp x rhon g0)
  let g1_face := r_face_norm.map (fun x => interp x rhon g1)
  let g1 := r_norm.map (fun x => interp x rhon g1)
  let g2 := r_norm.map (fun x => interp x rhon g2)
  let g3 := r_norm.map (fun x => interp x rhon g3)
  let volume_face := r_face_norm.map (fun x => interp x rhon volume)
  let volume := r_norm.map (fun x => interp x rhon volume)
  let area_face := r_face_norm.map (fun x => interp x rhon area)
  let area := r_norm.map (fun x => interp x rhon area)
  let g0_over_vpr_face := (1 : ℚ) :: ediv (g0_face.drop 1) (vpr_face.drop 1)
  let g1_over_vpr := ediv g1 vpr
  let g1_over_vpr2 := ediv g1 (esq vpr)
  let g1_over_vpr_face := (0 : ℚ) :: ediv (g1_face.drop 1) (vpr_face.drop 1)
  let g1_over_vpr2_face := (1 : ℚ) :: ediv (g1_face.drop 1) (esq (vpr_face.drop 1))
  ({ geometry_type := 1
     dr_norm := dr_norm
     dr := dr
     mesh := mesh
     rmax := rmax
     r_face_norm := r_face_norm
     r_norm := r_norm
     r_face := r_face
     r := r
     B0 := B0
     volume := volume
     volume_face := volume_face
     area := area
     area_face := area_face
     vpr := vpr
     vpr_face := vpr_face
     spr_cell := spr_cell
     spr_face := spr_face
     delta_face := delta_face
     G2 := G2
     G2_face := G2_face
     g0 := g0
     g0_face := g0_face
     g1 := g1
     g1_face := g1_face
     g0_over_vpr_face := g0_over_vpr_face
     g1_over_vpr := g1_over_vpr
     g1_over_vpr_face := g1_over_vpr_face
     g1_over_vpr2 := g1_over_vpr2
     g1_over_vpr2_face := g1_over_vpr2_face
     J := J
     J_face := J_face
     F := F
     F_face := F_face
     Rin := Rin
     Rin_face := Rin_face
     Rout := Rout
     Rout_face := Rout_face
     g2 := g2
     g3 := g3
     psi_chease := psi_chease
     psi_from_chease_Ip := psi_from_chease_Ip
     jtot := jtot
     jtot_face := jtot_face
     delta_upper_face := delta_upper_face
     delta_lower_face := delta_lower_face }, config)

/-- Modelled from the spec: the `state` module is not under src/; the
evolving plasma state holds the directly-evolved profiles (ion and
electron temperature, density, poloidal flux) and the diagnostic profiles
re-derived from the flux each step (current density, safety factor,
magnetic shear), per spec sections 3 and 4.4 and the profile list of
`tests/sim.py`. -/
structure SimState where
  temp_ion : List ℚ
  temp_el : List ℚ
  ne : List ℚ
  psi : List ℚ
  jtot : List ℚ
  q_face : List ℚ
  s_face : List ℚ
deriving DecidableEq

/-- Embedding of `transport_model.TransportCoeffs`: the coefficient bundle
returned by a transport model, all face-centered. -/
structure TransportCoeffs where
  chi_face_ion : List ℚ
  chi_face_el : List ℚ
  d_face_el : List ℚ
  v_face_el : List ℚ
deriving DecidableEq

/-- Embedding of `ConstantTransportModel._call_implementation`
(transport_model/constant.py lines 30-46): each output array is the
configured constant times `jnp.ones_like(geo.r_face)`; the `state`
argument is deleted unused. -/
def ConstantTransportModel.call_implementation
    (dynamic_config_slice : DynamicConfigSlice) (geo : Geometry)
    (state : SimState) : TransportCoeffs :=
  { chi_face_ion :=
      smulL dynamic_config_slice.transport.chii_const
        (List.replicate geo.r_face.length 1)
    chi_face_el :=
      smulL dynamic_config_slice.transport.chie_const
        (List.replicate geo.r_face.length 1)
    d_face_el :=
      smulL dynamic_config_slice.transport.De_const
        (List.replicate geo.r_face.length 1)
    v_face_el :=
      smulL dynamic_config_slice.transport.Ve_const
        (List.replicate geo.r_face.length 1) }

/-- A transport model, as consumed by the time-step calculator: a function
from (config slice, geometry, state) to the coefficient bundle. -/
def TransportModelFn : Type :=
  DynamicConfigSlice → Geometry → SimState → TransportCoeffs

namespace FixedTimeStepCalculator

/-- Embedding of the module-level `STATE = None` of
fixed_time_step_calculator.py: the calculator's internal state type is the
one-value type of Python's `None`. -/
def STATE : Unit := ()

/-- Embedding of `FixedTimeStepCalculator.initial_state`. -/
def initial_state : Unit := STATE

/-- Embedding of `FixedTimeStepCalculator.not_done`
(fixed_time_step_calculator.py lines 45-52): `t < t_final`. -/
def not_done (t : ℚ) (dynamic_config_slice : DynamicConfigSlice)
    (state : Unit) : Bool :=
  decide (t < dynamic_config_slice.t_final)

/-- Embedding of `FixedTimeStepCalculator.next_dt`
(fixed_time_step_calculator.py lines 54-80): returns
`dynamic_config_slice.fixed_dt` and the unchanged `STATE`, ignoring the
geometry, simulation state, calculator state and transport model. -/
def next_dt (dynamic_config_slice : DynamicConfigSlice) (geo : Geometry)
    (sim_state : SimState) (time_step_calculator_state : Unit)
    (transport_model : TransportModelFn) : ℚ × Unit :=
  (dynamic_config_slice.fixed_dt, STATE)

end FixedTimeStepCalculator

/-- Modelled from the spec: the stepper modules are not under src/; per
spec section 4.4, one accepted time step updates each transported profile
by its solver result when its equation is enabled and copies it forward
unchanged when disabled, then re-derives the auxiliary diagnostics
(current density, safety factor, magnetic shear) from the flux profile.
The per-equation solver results and the diagnostic derivations are
abstract parameters. -/
def step_model (solveTi solveTe solveNe solvePsi : SimState → List ℚ)
    (deriveJtot deriveQ deriveS : List ℚ → List ℚ)
    (config : Config) (s : SimState) : SimState :=
  let temp_ion := if config.ion_heat_eq then solveTi s else s.temp_ion
  let temp_el := if config.el_heat_eq then solveTe s else s.temp_el
  let ne := if config.dens_eq then solveNe s else s.ne
  let psi := if config.current_eq then solvePsi s else s.psi
  { temp_ion := temp_ion
    temp_el := temp_el
    ne := ne
    psi := psi
    jtot := deriveJtot psi
    q_face := deriveQ psi
    s_face := deriveS psi }

/-- Modelled from the spec: initial-state construction derives the
diagnostic profiles from the initial flux with the same derivations the
stepper uses each step (spec sections 4.4-4.5: diagnostics are recomputed
from the flux profile, never copied forward). -/
def initial_state_model (ti te ne psi : List ℚ)
    (deriveJtot deriveQ deriveS : List ℚ → List ℚ) : SimState :=
  { temp_ion := ti
    temp_el := te
    ne := ne
    psi := psi
    jtot := deriveJtot psi
    q_face := deriveQ psi
    s_face := deriveS psi }

/-- Modelled from the spec: the solver modules are not under src/; per
spec section 4.4, for a frozen (non-re-evaluated) coefficient set the
one-step system is linear, with steady-state residual
`r(x) = A x - b`. -/
def residual {n : ℕ} (A : Matrix (Fin n) (Fin n) ℚ) (b x : Fin n → ℚ) :
    Fin n → ℚ :=
  A.mulVec x - b

/-- Modelled from the spec: the linear strategy performs one direct solve
of the assembled frozen-coefficient linear system (spec section 4.4,
"Linear"), here by Cramer's rule. -/
def linearSolve {n : ℕ} (A : Matrix (Fin n) (Fin n) ℚ) (b : Fin n → ℚ) :
    Fin n → ℚ :=
  A.det⁻¹ • A.adjugate.mulVec b

/-- Modelled from the spec: one Newton-Raphson update
`x - J(x)⁻¹ r(x)` (spec section 4.4, "Newton-Raphson"); with frozen
coefficients the Jacobian of `r` is the frozen matrix `A`. -/
def newtonStep {n : ℕ} (A : Matrix (Fin n) (Fin n) ℚ) (b x : Fin n → ℚ) :
    Fin n → ℚ :=
  x - A.det⁻¹ • A.adjugate.mulVec (residual A b x)

/-- Modelled from the spec: the optimizer strategy treats the nonlinear
residual as a minimization objective (spec section 4.4, "Optimizer"); the
objective is the squared residual norm. -/
def objective {n : ℕ} (A : Matrix (Fin n) (Fin n) ℚ) (b x : Fin n → ℚ) : ℚ :=
  ∑ i, (residual A b x i) ^ 2

/-- Sample configuration with all transported-quantity equations disabled,
used by witnesses. -/
def sample_config : Config :=
  { nr := 2
    Rmaj := 62 / 10
    Rmin := 2
    B0 := 53 / 10
    Ip := 15
    t_final := 5
    fixed_dt := 1 / 10
    ion_heat_eq := false
    el_heat_eq := false
    current_eq := false
    dens_eq := false
    chii_const := 1
    chie_const := 1
    De_const := 1
    Ve_const := 0 }

/-- Sample dynamic config slice, used by witnesses. -/
def sample_slice : DynamicConfigSlice := build_dynamic_config_slice sample_config

/-- Second sample dynamic config slice agreeing with `sample_slice` on
`fixed_dt` only, used by the C10 witness. -/
def sample_slice2 : DynamicConfigSlice :=
  { t_final := 99
    fixed_dt := 1 / 10
    Ip := 7
    transport :=
      { chii_const := 3
        chie_const := 4
        De_const := 5
        Ve_const := 6 } }

/-- Sample geometry (a circular geometry built from `sample_config`),
used by witnesses. -/
def sample_geometry : Geometry :=
  (build_circular_geometry (fun _ => 1) sample_config (172 / 100) 4).1.toGeometry

/-- Sample simulation state, used by witnesses. -/
def sample_state : SimState :=
  { temp_ion := [1, 2]
    temp_el := [1, 2]
    ne := [1, 2]
    psi := [0, 1]
    jtot := [0, 1]
    q_face := [0, 1]
    s_face := [0, 1] }

/-- Second sample simulation state, used by witnesses. -/
def sample_state2 : SimState :=
  { temp_ion := [5]
    temp_el := [6]
    ne := [7]
    psi := [8]
    jtot := [9]
    q_face := [10]
    s_face := [11] }

/-- Sample CHEASE data mapping (three knots), used by the C7
counterexample. -/
def sample_chease_data : CheaseData :=
  { psichease := [0, 1, 2]
    Ipprofile := [0, 1, 2]
    rho_tor := [0, 1 / 2, 1]
    rho_tor_norm := [0, 1 / 2, 1]
    R_inboard := [1, 1, 1]
    R_outboard := [1, 1, 1]
    T_RBphi := [1, 1, 1]
    delta_upper := [0, 0, 0]
    delta_bottom := [0, 0, 0]
    int_Jdchi := [1, 1, 1]
    one_over_R2 := [1, 1, 1]
    Bp2 := [1, 1, 1]
    grad_psi_sq := [1, 1, 1]
    grad_psi := [1, 1, 1]
    volumeprofile := [0, 1, 2]
    areaprofile := [0, 1, 2] }

/-- Length of `linspace`. -/
lemma linspace_length (a b : ℚ) (n : ℕ) : (linspace a b n).length = n := by
  rw [linspace, List.length_map, List.length_range]

/-- Element formula for `linspace`. -/
lemma linspace_getD (a b : ℚ) (n i : ℕ) (h : i < n) :
    (linspace a b n).getD i 0 = a + i * (b - a) / ((n : ℚ) - 1) := by
  rw [List.getD_eq_getElem _ _ (by rw [linspace_length]; exact h)]
  simp [linspace]

/-- Face centers of a constructed grid are `i * dx`. -/
lemma construct_face_getD (nx : ℕ) (dx : ℚ) (i : ℕ) (h : i < nx + 1) :
    (Grid1D.construct nx dx).face_centers.getD i 0 = i * dx := by
  have := linspace_getD 0 ((nx : ℚ) * dx) (nx + 1) i h
  rw [Grid1D.construct] at *
  rw [this]
  rcases Nat.eq_zero_or_pos nx with h0 | h0
  · subst h0
    have : i = 0 := by omega
    subst this
    simp
  · have hnx : (nx : ℚ) ≠ 0 := Nat.cast_ne_zero.mpr (by omega)
    push_cast
    field_simp
    ring

/-- Cell centers of a constructed grid are `(i + 1/2) * dx`. -/
lemma construct_cell_getD (nx : ℕ) (dx : ℚ) (i : ℕ) (h : i < nx) :
    (Grid1D.construct nx dx).cell_centers.getD i 0 = ((i : ℚ) + 1 / 2) * dx := by
  have := linspace_getD (dx * 0.5) (((nx : ℚ) - 0.5) * dx) nx i h
  rw [Grid1D.construct] at *
  rw [this]
  rcases eq_or_lt_of_le (Nat.one_le_iff_ne_zero.mpr (by omega : nx ≠ 0)) with h1 | h1
  · have hnx1 : nx = 1 := h1.symm
    subst hnx1
    have : i = 0 := by omega
    subst this
    push_cast
    ring_nf
  · have hne : (nx : ℚ) - 1 ≠ 0 := by
      have : (1 : ℚ) < (nx : ℚ) := by exact_mod_cast h1
      intro hc
      nlinarith
    field_simp
    ring

/-- C4: `Grid1D.construct(nx, dx)` satisfies
`face_centers[i+1] - face_centers[i] = dx` and
`cell_centers[i] = 0.5 * (face_centers[i] + face_centers[i+1])` for every
`i < nx`. -/
theorem c4_grid_construct_invariant (nx : ℕ) (dx : ℚ) (i : ℕ) (h : i < nx) :
    (Grid1D.construct nx dx).face_centers.getD (i + 1) 0 -
      (Grid1D.construct nx dx).face_centers.getD i 0 = dx ∧
    (Grid1D.construct nx dx).cell_centers.getD i 0 =
      0.5 * ((Grid1D.construct nx dx).face_centers.getD i 0 +
        (Grid1D.construct nx dx).face_centers.getD (i + 1) 0) := by
  rw [construct_face_getD nx dx i (by omega),
    construct_face_getD nx dx (i + 1) (by omega),
    construct_cell_getD nx dx i h]
  constructor
  · push_cast
    ring
  · push_cast
    ring

/-- Witness for C4 at `nx = 3`, `dx = 1/3`, `i = 1`. -/
theorem c4_grid_construct_invariant_witness :
    (1 < 3) ∧
    ((Grid1D.construct 3 (1 / 3)).face_centers.getD 2 0 -
      (Grid1D.construct 3 (1 / 3)).face_centers.getD 1 0 = 1 / 3 ∧
    (Grid1D.construct 3 (1 / 3)).cell_centers.getD 1 0 =
      0.5 * ((Grid1D.construct 3 (1 / 3)).face_centers.getD 1 0 +
        (Grid1D.construct 3 (1 / 3)).face_centers.getD 2 0)) :=
  ⟨by decide, c4_grid_construct_invariant 3 (1 / 3) 1 (by decide)⟩

/-- C5 counterexample: the grid produced by `Grid1D.construct 1 0` (cell
width 0) does not have strictly increasing face centers, refuting the
claim for arbitrary constructed grids. -/
theorem c5_counterexample :
    ¬ ((Grid1D.construct 1 0).face_centers.getD 0 0 <
      (Grid1D.construct 1 0).face_centers.getD 1 0) := by
  rw [construct_face_getD 1 0 0 (by omega), construct_face_getD 1 0 1 (by omega)]
  norm_num

/-- C5 (amended with the positivity hypothesis `0 < dx` the counterexample
forces): every grid built by `Grid1D.construct` from a positive cell width
has strictly increasing face and cell centers, and one more face than
cells. -/
theorem c5_grid_monotonic (nx : ℕ) (dx : ℚ) (hdx : 0 < dx) :
    (∀ i, i + 1 < (Grid1D.construct nx dx).face_centers.length →
      (Grid1D.construct nx dx).face_centers.getD i 0 <
        (Grid1D.construct nx dx).face_centers.getD (i + 1) 0) ∧
    (∀ i, i + 1 < (Grid1D.construct nx dx).cell_centers.length →
      (Grid1D.construct nx dx).cell_centers.getD i 0 <
        (Grid1D.construct nx dx).cell_centers.getD (i + 1) 0) ∧
    (Grid1D.construct nx dx).face_centers.length =
      (Grid1D.construct nx dx).cell_centers.length + 1 := by
  have hflen : (Grid1D.construct nx dx).face_centers.length = nx + 1 := by
    simp [Grid1D.construct, linspace_length]
  have hclen : (Grid1D.construct nx dx).cell_centers.length = nx := by
    simp [Grid1D.construct, linspace_length]
  refine ⟨?_, ?_, by rw [hflen, hclen]⟩
  · intro i hi
    rw [hflen] at hi
    rw [construct_face_getD nx dx i (by omega),
      construct_face_getD nx dx (i + 1) (by omega)]
    have : (i : ℚ) < (i : ℚ) + 1 := by linarith
    push_cast
    nlinarith
  · intro i hi
    rw [hclen] at hi
    rw [construct_cell_getD nx dx i (by omega),
      construct_cell_getD nx dx (i + 1) (by omega)]
    push_cast
    nlinarith

/-- Witness for C5 at `nx = 2`, `dx = 1/2`. -/
theorem c5_grid_monotonic_witness :
    (0 : ℚ) < 1 / 2 ∧
    ((∀ i, i + 1 < (Grid1D.construct 2 (1 / 2)).face_centers.length →
      (Grid1D.construct 2 (1 / 2)).face_centers.getD i 0 <
        (Grid1D.construct 2 (1 / 2)).face_centers.getD (i + 1) 0) ∧
    (∀ i, i + 1 < (Grid1D.construct 2 (1 / 2)).cell_centers.length →
      (Grid1D.construct 2 (1 / 2)).cell_centers.getD i 0 <
        (Grid1D.construct 2 (1 / 2)).cell_centers.getD (i + 1) 0) ∧
    (Grid1D.construct 2 (1 / 2)).face_centers.length =
      (Grid1D.construct 2 (1 / 2)).cell_centers.length + 1) :=
  ⟨by norm_num, c5_grid_monotonic 2 (1 / 2) (by norm_num)⟩

/-- Unfolding of `face_to_cell` on a two-or-more element list. -/
lemma face_to_cell_cons (a b : ℚ) (rest : List ℚ) :
    face_to_cell (a :: b :: rest) = (0.5 * (a + b)) :: face_to_cell (b :: rest) := rfl

/-- Element formula for `face_to_cell`. -/
lemma face_to_cell_getD (l : List ℚ) (i : ℕ) (h : i + 1 < l.length) :
    (face_to_cell l).getD i 0 = 0.5 * (l.getD i 0 + l.getD (i + 1) 0) := by
  induction l generalizing i with
  | nil => simp at h
  | cons a t ih =>
    cases t with
    | nil => simp at h
    | cons b rest =>
      rw [face_to_cell_cons]
      cases i with
      | zero => simp
      | succ j =>
        have hj : j + 1 < (b :: rest).length := by
          simpa using Nat.lt_of_succ_lt_succ h
        simp only [List.getD_cons_succ]
        exact ih j hj

/-- Length of `face_to_cell`. -/
lemma face_to_cell_length (l : List ℚ) :
    (face_to_cell l).length = l.length - 1 := by
  rw [face_to_cell, smulL, List.length_map, eadd, List.length_zipWith,
    List.length_dropLast, List.length_drop]
  omega

/-- C6: for a face-value array of length `n + 1` with `n ≥ 1`,
`face_to_cell` returns an array of length `n` whose `i`-th entry is
`0.5 * (face[i] + face[i+1])`. -/
theorem c6_face_to_cell (face : List ℚ) (n : ℕ) (hlen : face.length = n + 1)
    (hn : 1 ≤ n) :
    (face_to_cell face).length = n ∧
    ∀ i, i < n → (face_to_cell face).getD i 0 =
      0.5 * (face.getD i 0 + face.getD (i + 1) 0) := by
  constructor
  · rw [face_to_cell_length, hlen]
    omega
  · intro i hi
    exact face_to_cell_getD face i (by omega)

/-- Witness for C6 at `face = [1, 2, 4]`, `n = 2`, checking entry 1. -/
theorem c6_face_to_cell_witness :
    ([(1 : ℚ), 2, 4].length = 2 + 1) ∧ (1 ≤ 2) ∧
    ((face_to_cell [(1 : ℚ), 2, 4]).length = 2 ∧
    ∀ i, i < 2 → (face_to_cell [(1 : ℚ), 2, 4]).getD i 0 =
      0.5 * ([(1 : ℚ), 2, 4].getD i 0 + [(1 : ℚ), 2, 4].getD (i + 1) 0)) :=
  ⟨by decide, by decide, c6_face_to_cell [1, 2, 4] 2 (by decide) (by decide)⟩

/-- C3: both geometry builders put the analytic on-axis limits at the
first face of the singular ratio arrays: `g0_over_vpr_face[0] = 1`,
`g1_over_vpr_face[0] = 0`, `g1_over_vpr2_face[0] = 1`, exactly. -/
theorem c3_on_axis_regularity (sqrtFn : ℚ → ℚ) (config : Config)
    (kappa : ℚ) (hires_fac : ℕ) (chease_data : CheaseData) (ip_flag : Bool) :
    ((build_circular_geometry sqrtFn config kappa hires_fac).1.g0_over_vpr_face.getD 0 0 = 1 ∧
     (build_circular_geometry sqrtFn config kappa hires_fac).1.g1_over_vpr_face.getD 0 0 = 0 ∧
     (build_circular_geometry sqrtFn config kappa hires_fac).1.g1_over_vpr2_face.getD 0 0 = 1) ∧
    ((build_chease_geometry config chease_data ip_flag).1.g0_over_vpr_face.getD 0 0 = 1 ∧
     (build_chease_geometry config chease_data ip_flag).1.g1_over_vpr_face.getD 0 0 = 0 ∧
     (build_chease_geometry config chease_data ip_flag).1.g1_over_vpr2_face.getD 0 0 = 1) :=
  ⟨⟨rfl, rfl, rfl⟩, ⟨rfl, rfl, rfl⟩⟩

/-- C7 counterexample: `build_chease_geometry` with
`Ip_from_parameters = False` does not leave the input config unchanged —
it overwrites `config.Ip` (geometry.py line 514), here at a concrete
config (`Ip = 15`) and concrete CHEASE data. -/
theorem c7_counterexample :
    (build_chease_geometry sample_config sample_chease_data false).2.Ip ≠
      sample_config.Ip := by
  have h : (build_chease_geometry sample_config sample_chease_data false).2 =
      { sample_config with
        Ip := lastD (mulsR (mulsR (divsR sample_chease_data.Ipprofile mu0)
          sample_config.Rmaj) sample_config.B0) / 1e6 } := rfl
  rw [h]
  show lastD (mulsR (mulsR (divsR sample_chease_data.Ipprofile mu0)
    sample_config.Rmaj) sample_config.B0) / 1e6 ≠ sample_config.Ip
  norm_num [lastD, mulsR, divsR, sample_chease_data, sample_config, mu0, pi_q]

/-- C7 (amended as the counterexample forces): geometry building never
mutates the config except that `build_chease_geometry` with
`Ip_from_parameters = False` sets `config.Ip` to the CHEASE-derived
plasma current `Ip_chease[-1] / 1e6`; `build_circular_geometry` and
`build_chease_geometry` with `Ip_from_parameters = True` leave every
config field unchanged. -/
theorem c7_config_mutation (sqrtFn : ℚ → ℚ) (config : Config) (kappa : ℚ)
    (hires_fac : ℕ) (chease_data : CheaseData) :
    (build_circular_geometry sqrtFn config kappa hires_fac).2 = config ∧
    (build_chease_geometry config chease_data true).2 = config ∧
    (build_chease_geometry config chease_data false).2 =
      { config with
        Ip := lastD (mulsR (mulsR (divsR chease_data.Ipprofile mu0)
          config.Rmaj) config.B0) / 1e6 } :=
  ⟨rfl, rfl, rfl⟩

/-- C8: `FixedTimeStepCalculator.not_done` returns `True` exactly when
`t < t_final`, so stepping stops exactly when `t >= t_final`. -/
theorem c8_not_done_iff (t : ℚ) (dynamic_config_slice : DynamicConfigSlice)
    (st : Unit) :
    (FixedTimeStepCalculator.not_done t dynamic_config_slice st = true ↔
      t < dynamic_config_slice.t_final) ∧
    (FixedTimeStepCalculator.not_done t dynamic_config_slice st = false ↔
      dynamic_config_slice.t_final ≤ t) := by
  constructor
  · simp [FixedTimeStepCalculator.not_done]
  · simp [FixedTimeStepCalculator.not_done, not_lt]

/-- C9: the constant transport model returns four face-centered arrays,
each of the face grid's length with every entry the corresponding
configured constant, and the output ignores the state argument (it is a
pure function of its inputs, and does not depend on the plasma state at
all). -/
theorem c9_constant_transport_model (dynamic_config_slice : DynamicConfigSlice)
    (geo : Geometry) (state : SimState) :
    (ConstantTransportModel.call_implementation dynamic_config_slice geo state).chi_face_ion =
      List.replicate geo.r_face.length dynamic_config_slice.transport.chii_const ∧
    (ConstantTransportModel.call_implementation dynamic_config_slice geo state).chi_face_el =
      List.replicate geo.r_face.length dynamic_config_slice.transport.chie_const ∧
    (ConstantTransportModel.call_implementation dynamic_config_slice geo state).d_face_el =
      List.replicate geo.r_face.length dynamic_config_slice.transport.De_const ∧
    (ConstantTransportModel.call_implementation dynamic_config_slice geo state).v_face_el =
      List.replicate geo.r_face.length dynamic_config_slice.transport.Ve_const ∧
    (ConstantTransportModel.call_implementation dynamic_config_slice geo state).chi_face_ion.length =
      geo.r_face.length ∧
    ∀ state2 : SimState,
      ConstantTransportModel.call_implementation dynamic_config_slice geo state2 =
        ConstantTransportModel.call_implementation dynamic_config_slice geo state := by
  refine ⟨?_, ?_, ?_, ?_, ?_, fun state2 => rfl⟩ <;>
    simp [ConstantTransportModel.call_implementation, smulL, List.map_replicate]

/-- C10: `FixedTimeStepCalculator.next_dt` returns exactly
`(fixed_dt, STATE)`; the returned dt depends only on the config slice's
`fixed_dt`, not on the geometry, simulation state, calculator state or
transport model. -/
theorem c10_next_dt_fixed (dynamic_config_slice : DynamicConfigSlice)
    (geo : Geometry) (sim_state : SimState) (ts : Unit)
    (transport_model : TransportModelFn) :
    FixedTimeStepCalculator.next_dt dynamic_config_slice geo sim_state ts
        transport_model =
      (dynamic_config_slice.fixed_dt, FixedTimeStepCalculator.STATE) ∧
    ∀ (slice2 : DynamicConfigSlice) (geo2 : Geometry) (s2 : SimState)
      (ts2 : Unit) (tm2 : TransportModelFn),
      slice2.fixed_dt = dynamic_config_slice.fixed_dt →
      (FixedTimeStepCalculator.next_dt slice2 geo2 s2 ts2 tm2).1 =
        (FixedTimeStepCalculator.next_dt dynamic_config_slice geo sim_state ts
          transport_model).1 :=
  ⟨rfl, fun _ _ _ _ _ h => h⟩

/-- Witness for C10 at two concrete inputs that agree only on `fixed_dt`. -/
theorem c10_next_dt_fixed_witness :
    sample_slice2.fixed_dt = sample_slice.fixed_dt ∧
    (FixedTimeStepCalculator.next_dt sample_slice2 sample_geometry
      sample_state2 () ConstantTransportModel.call_implementation).1 =
      (FixedTimeStepCalculator.next_dt sample_slice sample_geometry
        sample_state () ConstantTransportModel.call_implementation).1 :=
  ⟨rfl,
    (c10_next_dt_fixed sample_slice sample_geometry sample_state ()
      ConstantTransportModel.call_implementation).2 sample_slice2
      sample_geometry sample_state2 () ConstantTransportModel.call_implementation
      rfl⟩

/-- C1: with all four transported-quantity equations disabled, any number
of steps leaves every directly-evolved profile exactly equal to its
initial value, and the re-derived diagnostic profiles stay within the
relative tolerance `1e-10` of their initial values (here they are in fact
exactly equal, which implies the tolerance bound). -/
theorem c1_no_op_invariant (solveTi solveTe solveNe solvePsi : SimState → List ℚ)
    (dJ dQ dS : List ℚ → List ℚ) (config : Config) (ti te ne psi : List ℚ)
    (N : ℕ) (h1 : config.ion_heat_eq = false) (h2 : config.el_heat_eq = false)
    (h3 : config.current_eq = false) (h4 : config.dens_eq = false) :
    ((step_model solveTi solveTe solveNe solvePsi dJ dQ dS config)^[N]
        (initial_state_model ti te ne psi dJ dQ dS)).temp_ion =
      (initial_state_model ti te ne psi dJ dQ dS).temp_ion ∧
    ((step_model solveTi solveTe solveNe solvePsi dJ dQ dS config)^[N]
        (initial_state_model ti te ne psi dJ dQ dS)).temp_el =
      (initial_state_model ti te ne psi dJ dQ dS).temp_el ∧
    ((step_model solveTi solveTe solveNe solvePsi dJ dQ dS config)^[N]
        (initial_state_model ti te ne psi dJ dQ dS)).ne =
      (initial_state_model ti te ne psi dJ dQ dS).ne ∧
    ((step_model solveTi solveTe solveNe solvePsi dJ dQ dS config)^[N]
        (initial_state_model ti te ne psi dJ dQ dS)).psi =
      (initial_state_model ti te ne psi dJ dQ dS).psi ∧
    (∀ i : ℕ,
      |((step_model solveTi solveTe solveNe solvePsi dJ dQ dS config)^[N]
          (initial_state_model ti te ne psi dJ dQ dS)).jtot.getD i 0 -
        (initial_state_model ti te ne psi dJ dQ dS).jtot.getD i 0| ≤
        1e-10 * |(initial_state_model ti te ne psi dJ dQ dS).jtot.getD i 0|) ∧
    (∀ i : ℕ,
      |((step_model solveTi solveTe solveNe solvePsi dJ dQ dS config)^[N]
          (initial_state_model ti te ne psi dJ dQ dS)).q_face.getD i 0 -
        (initial_state_model ti te ne psi dJ dQ dS).q_face.getD i 0| ≤
        1e-10 * |(initial_state_model ti te ne psi dJ dQ dS).q_face.getD i 0|) ∧
    (∀ i : ℕ,
      |((step_model solveTi solveTe solveNe solvePsi dJ dQ dS config)^[N]
          (initial_state_model ti te ne psi dJ dQ dS)).s_face.getD i 0 -
        (initial_state_model ti te ne psi dJ dQ dS).s_face.getD i 0| ≤
        1e-10 * |(initial_state_model ti te ne psi dJ dQ dS).s_face.getD i 0|) := by
  have hfix : step_model solveTi solveTe solveNe solvePsi dJ dQ dS config
      (initial_state_model ti te ne psi dJ dQ dS) =
      initial_state_model ti te ne psi dJ dQ dS := by
    simp [step_model, initial_state_model, h1, h2, h3, h4]
  rw [Function.iterate_fixed hfix N]
  refine ⟨rfl, rfl, rfl, rfl, ?_, ?_, ?_⟩ <;>
    · intro i
      simp only [sub_self, abs_zero]
      positivity

/-- Witness for C1 with trivial solvers and derivations, `sample_config`
(all equations disabled), profiles `[1]` and `N = 3`. -/
theorem c1_no_op_invariant_witness :
    sample_config.ion_heat_eq = false ∧ sample_config.el_heat_eq = false ∧
    sample_config.current_eq = false ∧ sample_config.dens_eq = false ∧
    (((step_model (fun _ => []) (fun _ => []) (fun _ => []) (fun _ => [])
        id id id sample_config)^[3]
        (initial_state_model [1] [1] [1] [1] id id id)).temp_ion =
      (initial_state_model [1] [1] [1] [1] id id id).temp_ion ∧
    ((step_model (fun _ => []) (fun _ => []) (fun _ => []) (fun _ => [])
        id id id sample_config)^[3]
        (initial_state_model [1] [1] [1] [1] id id id)).temp_el =
      (initial_state_model [1] [1] [1] [1] id id id).temp_el ∧
    ((step_model (fun _ => []) (fun _ => []) (fun _ => []) (fun _ => [])
        id id id sample_config)^[3]
        (initial_state_model [1] [1] [1] [1] id id id)).ne =
      (initial_state_model [1] [1] [1] [1] id id id).ne ∧
    ((step_model (fun _ => []) (fun _ => []) (fun _ => []) (fun _ => [])
        id id id sample_config)^[3]
        (initial_state_model [1] [1] [1] [1] id id id)).psi =
      (initial_state_model [1] [1] [1] [1] id id id).psi ∧
    (∀ i : ℕ,
      |((step_model (fun _ => []) (fun _ => []) (fun _ => []) (fun _ => [])
          id id id sample_config)^[3]
          (initial_state_model [1] [1] [1] [1] id id id)).jtot.getD i 0 -
        (initial_state_model [1] [1] [1] [1] id id id).jtot.getD i 0| ≤
        1e-10 * |(initial_state_model [1] [1] [1] [1] id id id).jtot.getD i 0|) ∧
    (∀ i : ℕ,
      |((step_model (fun _ => []) (fun _ => []) (fun _ => []) (fun _ => [])
          id id id sample_config)^[3]
          (initial_state_model [1] [1] [1] [1] id id id)).q_face.getD i 0 -
        (initial_state_model [1] [1] [1] [1] id id id).q_face.getD i 0| ≤
        1e-10 * |(initial_state_model [1] [1] [1] [1] id id id).q_face.getD i 0|) ∧
    (∀ i : ℕ,
      |((step_model (fun _ => []) (fun _ => []) (fun _ => []) (fun _ => [])
          id id id sample_config)^[3]
          (initial_state_model [1] [1] [1] [1] id id id)).s_face.getD i 0 -
        (initial_state_model [1] [1] [1] [1] id id id).s_face.getD i 0| ≤
        1e-10 * |(initial_state_model [1] [1] [1] [1] id id id).s_face.getD i 0|)) :=
  ⟨rfl, rfl, rfl, rfl,
    c1_no_op_invariant (fun _ => []) (fun _ => []) (fun _ => []) (fun _ => [])
      id id id sample_config [1] [1] [1] [1] 3 rfl rfl rfl rfl⟩

/-- Applying the adjugate after the matrix scales by the determinant. -/
lemma adjugate_mulVec_mulVec {n : ℕ} (A : Matrix (Fin n) (Fin n) ℚ)
    (x : Fin n → ℚ) :
    A.adjugate.mulVec (A.mulVec x) = A.det • x := by
  rw [Matrix.mulVec_mulVec, Matrix.adjugate_mul, Matrix.smul_mulVec_assoc,
    Matrix.one_mulVec]

/-- The Cramer solution satisfies the frozen linear system. -/
lemma linearSolve_mulVec {n : ℕ} (A : Matrix (Fin n) (Fin n) ℚ)
    (b : Fin n → ℚ) (hdet : A.det ≠ 0) :
    A.mulVec (linearSolve A b) = b := by
  rw [linearSolve, Matrix.mulVec_smul_assoc, Matrix.mulVec_mulVec,
    Matrix.mul_adjugate, Matrix.smul_mulVec_assoc, Matrix.one_mulVec,
    smul_smul, inv_mul_cancel₀ hdet, one_smul]

/-- The frozen linear system has a unique solution. -/
lemma eq_linearSolve_of_mulVec_eq {n : ℕ} (A : Matrix (Fin n) (Fin n) ℚ)
    (b x : Fin n → ℚ) (hdet : A.det ≠ 0) (hx : A.mulVec x = b) :
    x = linearSolve A b := by
  calc x = A.det⁻¹ • (A.det • x) := by
        rw [smul_smul, inv_mul_cancel₀ hdet, one_smul]
  _ = A.det⁻¹ • A.adjugate.mulVec (A.mulVec x) := by
        rw [adjugate_mulVec_mulVec]
  _ = A.det⁻¹ • A.adjugate.mulVec b := by rw [hx]
  _ = linearSolve A b := rfl

/-- The Cramer solution minimizes the squared-residual objective. -/
lemma linearSolve_minimizes {n : ℕ} (A : Matrix (Fin n) (Fin n) ℚ)
    (b : Fin n → ℚ) (hdet : A.det ≠ 0) :
    ∀ y, objective A b (linearSolve A b) ≤ objective A b y := by
  intro y
  have h0 : objective A b (linearSolve A b) = 0 := by
    have hres : residual A b (linearSolve A b) = 0 := by
      rw [residual, linearSolve_mulVec A b hdet, sub_self]
    simp [objective, hres]
  rw [h0]
  exact Finset.sum_nonneg (fun i _ => sq_nonneg _)

/-- C2: with a frozen (non-re-evaluated) coefficient set and invertible
system matrix, the one-step results of the three strategies coincide
exactly (hence within any configured tolerance): a Newton-Raphson update
from any starting state equals the direct linear solve, and any minimizer
of the optimizer's squared-residual objective equals the direct linear
solve, which solves the frozen system. -/
theorem c2_solver_agreement {n : ℕ} (A : Matrix (Fin n) (Fin n) ℚ)
    (b x0 xopt : Fin n → ℚ) (hdet : A.det ≠ 0)
    (hopt : ∀ y, objective A b xopt ≤ objective A b y) :
    newtonStep A b x0 = linearSolve A b ∧
    xopt = linearSolve A b ∧
    A.mulVec (linearSolve A b) = b := by
  refine ⟨?_, ?_, linearSolve_mulVec A b hdet⟩
  · rw [newtonStep, residual, Matrix.mulVec_sub, smul_sub,
      adjugate_mulVec_mulVec, smul_smul, inv_mul_cancel₀ hdet, one_smul]
    rw [linearSolve]
    abel
  · have hge : 0 ≤ objective A b xopt :=
      Finset.sum_nonneg (fun i _ => sq_nonneg _)
    have hle := hopt (linearSolve A b)
    have h0 : objective A b (linearSolve A b) = 0 := by
      have hres : residual A b (linearSolve A b) = 0 := by
        rw [residual, linearSolve_mulVec A b hdet, sub_self]
      simp [objective, hres]
    rw [h0] at hle
    have heq : objective A b xopt = 0 := le_antisymm hle hge
    have hz : ∀ i, residual A b xopt i = 0 := by
      intro i
      have hsq := (Finset.sum_eq_zero_iff_of_nonneg
        (fun j _ => sq_nonneg (residual A b xopt j))).1 heq i (Finset.mem_univ i)
      exact sq_eq_zero_iff.1 hsq
    have hxb : A.mulVec xopt = b := by
      funext i
      have hi := hz i
      rw [residual] at hi
      have hi2 : A.mulVec xopt i - b i = 0 := hi
      linarith
    exact eq_linearSolve_of_mulVec_eq A b xopt hdet hxb

/-- Witness for C2 on the concrete 1x1 frozen system `2 x = 5` with the
exact minimizer as the optimizer result and Newton start `x0 = 3`. -/
theorem c2_solver_agreement_witness :
    ((!![2] : Matrix (Fin 1) (Fin 1) ℚ).det ≠ 0) ∧
    (newtonStep (!![2] : Matrix (Fin 1) (Fin 1) ℚ) ![5] ![3] =
      linearSolve (!![2] : Matrix (Fin 1) (Fin 1) ℚ) ![5] ∧
    linearSolve (!![2] : Matrix (Fin 1) (Fin 1) ℚ) ![5] =
      linearSolve (!![2] : Matrix (Fin 1) (Fin 1) ℚ) ![5] ∧
    (!![2] : Matrix (Fin 1) (Fin 1) ℚ).mulVec
      (linearSolve (!![2] : Matrix (Fin 1) (Fin 1) ℚ) ![5]) = ![5]) :=
  have hdet : ((!![2] : Matrix (Fin 1) (Fin 1) ℚ).det ≠ 0) := by
    rw [Matrix.det_fin_one_of]
    norm_num
  ⟨hdet,
    c2_solver_agreement (!![2] : Matrix (Fin 1) (Fin 1) ℚ) ![5] ![3]
      (linearSolve (!![2] : Matrix (Fin 1) (Fin 1) ℚ) ![5]) hdet
      (linearSolve_minimizes (!![2] : Matrix (Fin 1) (Fin 1) ℚ) ![5] hdet)⟩

end Torax
